import Mathlib

/-!
Shallow embedding of the schedule-sensor core
(custom_components/schedule_sensor: schedule.py, sensor.py, __init__.py).

Conventions of the embedding:
* Python datetime/date/time values are modelled at whole-second resolution
  (the spec rules sub-second precision out of scope); comparisons are the
  lexicographic field comparisons Python uses.
* Timezone conversion (dt_util.as_local) is modelled as the identity: the
  core consumes already-localized instants.
* Exceptions are modelled with Option/Except: an IndexError or ValueError
  becomes a none / .error value.
* Dynamic template boundaries are modelled by the rendered text they
  produce (rendering itself is an external capability).
-/

/-- A time-of-day value (Python datetime.time at second resolution). -/
structure Time where
  hour : Nat
  minute : Nat
  second : Nat
deriving DecidableEq, Repr

/-- A calendar date value (Python datetime.date). -/
structure Date where
  year : Nat
  month : Nat
  day : Nat
deriving DecidableEq, Repr

/-- A full instant (Python datetime.datetime at second resolution). -/
structure DateTime where
  year : Nat
  month : Nat
  day : Nat
  hour : Nat
  minute : Nat
  second : Nat
deriving DecidableEq, Repr

def Time.toTriple (t : Time) : Nat ×ₗ (Nat ×ₗ Nat) :=
  toLex (t.hour, toLex (t.minute, t.second))

theorem Time.toTripleInjOfTime : Function.Injective Time.toTriple := by
  intro a b h
  cases a; cases b
  simp only [Time.toTriple, toLex, Equiv.refl_apply, Prod.mk.injEq] at h
  simp_all

/-- Python compares time objects field-lexicographically. -/
instance : LinearOrder Time := LinearOrder.lift' Time.toTriple Time.toTripleInjOfTime

def Date.toTriple (d : Date) : Nat ×ₗ (Nat ×ₗ Nat) :=
  toLex (d.year, toLex (d.month, d.day))

theorem Date.toTripleInjOfDate : Function.Injective Date.toTriple := by
  intro a b h
  cases a; cases b
  simp only [Date.toTriple, toLex, Equiv.refl_apply, Prod.mk.injEq] at h
  simp_all

/-- Python compares date objects field-lexicographically. -/
instance : LinearOrder Date := LinearOrder.lift' Date.toTriple Date.toTripleInjOfDate

/-- Python datetime.time(): project an instant to its time of day. -/
def DateTime.time (dt : DateTime) : Time :=
  ⟨dt.hour, dt.minute, dt.second⟩

/-- Python datetime.date(): project an instant to its calendar date. -/
def DateTime.date (dt : DateTime) : Date :=
  ⟨dt.year, dt.month, dt.day⟩

example : (⟨1, 0, 0⟩ : Time) < ⟨2, 0, 0⟩ := by decide
example : (⟨2010, 1, 1⟩ : Date) ≤ ⟨2010, 1, 1⟩ := by decide

/-!
Parsing model for __init__.py: strptime over the fixed format lists
DATE_FORMATS and TIME_FORMATS, tried in order by the private helper that
raises ValueError when none matches.
-/

/-- One strptime directive of the formats used by the component, or a
literal character of the format string. -/
inductive Dir where
  | Y | m | d | H | M | S | f
  | lit (c : Char)
deriving DecidableEq, Repr

/-- Consume the maximal leading run of ASCII digits, returning its value,
its length and the rest of the input. -/
def takeDigits : List Char → Nat → Nat → Nat × Nat × List Char
  | [], acc, cnt => (acc, cnt, [])
  | c :: cs, acc, cnt =>
    if c.isDigit then takeDigits cs (acc * 10 + (c.toNat - 48)) (cnt + 1)
    else (acc, cnt, c :: cs)

/-- The field-pattern constraint strptime places on one numeric directive:
the digit-count window and the value range of its regex alternation. -/
def dirOk (dir : Dir) (v cnt : Nat) : Bool :=
  match dir with
  | .Y => cnt == 4
  | .m => 1 ≤ cnt && cnt ≤ 2 && 1 ≤ v && v ≤ 12
  | .d => 1 ≤ cnt && cnt ≤ 2 && 1 ≤ v && v ≤ 31
  | .H => 1 ≤ cnt && cnt ≤ 2 && v ≤ 23
  | .M => 1 ≤ cnt && cnt ≤ 2 && v ≤ 59
  | .S => 1 ≤ cnt && cnt ≤ 2 && v ≤ 61
  | .f => 1 ≤ cnt && cnt ≤ 6
  | .lit _ => true

/-- The datetime strptime builds; absent fields keep strptime's defaults
(year 1900, month 1, day 1, midnight). Fractional seconds parsed by a
directive for microseconds are dropped: sub-second precision is out of
scope for the core. -/
structure PDT where
  year : Nat := 1900
  month : Nat := 1
  day : Nat := 1
  hour : Nat := 0
  minute : Nat := 0
  second : Nat := 0
deriving DecidableEq, Repr

/-- Store one parsed numeric field into the partial result. -/
def setField (p : PDT) (dir : Dir) (v : Nat) : PDT :=
  match dir with
  | .Y => { p with year := v }
  | .m => { p with month := v }
  | .d => { p with day := v }
  | .H => { p with hour := v }
  | .M => { p with minute := v }
  | .S => { p with second := v }
  | .f => p
  | .lit _ => p

/-- Match a whole format against a whole input string (strptime rejects
unconverted leftover data). The component's formats separate numeric
directives by non-digit literals, so the backtracking regex strptime
builds accepts exactly when each directive takes the maximal digit run. -/
def matchFmt : List Dir → List Char → PDT → Option PDT
  | [], [], p => some p
  | [], _ :: _, _ => none
  | .lit c :: ds, x :: xs, p => if x == c then matchFmt ds xs p else none
  | .lit _ :: _, [], _ => none
  | dir :: ds, cs, p =>
    match takeDigits cs 0 0 with
    | (v, cnt, rest) =>
      if dirOk dir v cnt then matchFmt ds rest (setField p dir v) else none

/-- Gregorian leap-year rule, as Python's calendar uses it. -/
def isLeap (y : Nat) : Bool :=
  y % 4 == 0 && (y % 100 != 0 || y % 400 == 0)

/-- Number of days in a month of a given year. -/
def daysInMonth (y m : Nat) : Nat :=
  if m == 2 then (if isLeap y then 29 else 28)
  else if m == 4 || m == 6 || m == 9 || m == 11 then 30
  else 31

/-- The datetime constructor's own validation, which strptime's result
still has to pass (it rejects Feb 30, second 61, year 0). -/
def validDT (p : PDT) : Bool :=
  1 ≤ p.year && 1 ≤ p.day && p.day ≤ daysInMonth p.year p.month && p.second ≤ 59

/-- datetime.strptime for one fixed format: None models the ValueError. -/
def strptime (value : String) (fmt : List Dir) : Option PDT :=
  match matchFmt fmt value.toList {} with
  | some p => if validDT p then some p else none
  | none => none

/-- DATE_FORMATS from __init__.py, in source order. -/
def DATE_FORMATS : List (List Dir) :=
  [[.m, .lit '/', .d],
   [.Y, .lit '/', .m, .lit '/', .d],
   [.Y, .lit '-', .m, .lit '-', .d],
   [.Y, .lit '-', .m, .lit '-', .d, .lit ' ', .H, .lit ':', .M, .lit ':', .S],
   [.Y, .lit '-', .m, .lit '-', .d, .lit ' ', .H, .lit ':', .M, .lit ':', .S, .lit '.', .f]]

/-- TIME_FORMATS from __init__.py, in source order. -/
def TIME_FORMATS : List (List Dir) :=
  [[.H, .lit ':', .M],
   [.H, .lit ':', .M, .lit ':', .S],
   [.Y, .lit '-', .m, .lit '-', .d, .lit ' ', .H, .lit ':', .M, .lit ':', .S],
   [.Y, .lit '-', .m, .lit '-', .d, .lit ' ', .H, .lit ':', .M, .lit ':', .S, .lit '.', .f]]

/-- The message of the ValueError the private parse helper raises. The
source interpolates the name input into the f-string, but in that scope
input is the Python builtin function, not the value being parsed, so the
message is this constant, independent of the offending value. -/
def parseErrMsg : String :=
  "<built-in function input> is not a recognized date/time"

/-- The private parse helper of __init__.py: try each format in order,
return the first successful parse, raise ValueError when all fail. -/
def pyParse (value : String) : List (List Dir) → Except String PDT
  | [] => .error parseErrMsg
  | fmt :: rest =>
    match strptime value fmt with
    | some p => .ok p
    | none => pyParse value rest

/-- parse_date from __init__.py: parse then keep the date part. -/
def parse_date (value : String) : Except String Date :=
  (pyParse value DATE_FORMATS).map fun p => ⟨p.year, p.month, p.day⟩

/-- parse_time from __init__.py: parse then keep the time part. -/
def parse_time (value : String) : Except String Time :=
  (pyParse value TIME_FORMATS).map fun p => ⟨p.hour, p.minute, p.second⟩

example : parse_date "10/21" = .ok ⟨1900, 10, 21⟩ := rfl
example : parse_date "2011/10/21" = .ok ⟨2011, 10, 21⟩ := rfl
example : parse_date "2012-10-21" = .ok ⟨2012, 10, 21⟩ := rfl
example : parse_date "10-21" = .error parseErrMsg := rfl
example : parse_time "11:30" = .ok ⟨11, 30, 0⟩ := rfl
example : parse_time "12:30:40" = .ok ⟨12, 30, 40⟩ := rfl
example : parse_time "2013-10-21 10:04:59" = .ok ⟨10, 4, 59⟩ := rfl
example : parse_time "02/01" = .error parseErrMsg := rfl

/-!
Slot model for schedule.py. A ScheduleSlot holds a name, a converter
projecting an instant onto the slot's boundary domain, and its start
boundary. The claims about Schedule compare slots through starts that are
stable across the calls of one update, so the slot carries its resolved
start value; the dynamic resolution of a DateSlot's start property is
modelled separately below. The interval field carries the per-variant
constant the Python property returns. -/
structure ScheduleSlot (α : Type) where
  name : String
  converter : DateTime → α
  start : α
  interval : Nat

/-- ScheduleSlot.after from schedule.py. -/
def ScheduleSlot.after [LinearOrder α] (s : ScheduleSlot α) (date_time : DateTime) : Bool :=
  s.converter date_time < s.start

/-- ScheduleSlot.active_at from schedule.py. -/
def ScheduleSlot.active_at [LinearOrder α] (s : ScheduleSlot α) (date_time : DateTime) : Bool :=
  s.start ≤ s.converter date_time

/-- A TimeSlot with resolved start: converter projects to time of day,
update interval 60 seconds. -/
def TimeSlot (name : String) (time : Time) : ScheduleSlot Time :=
  ⟨name, DateTime.time, time, 60⟩

/-- A DateSlot with resolved start: converter projects to the calendar
date, update interval 86400 seconds. -/
def DateSlot (name : String) (date : Date) : ScheduleSlot Date :=
  ⟨name, DateTime.date, date, 86400⟩

/-- The boundary source of a DateSlot's configuration: exactly one of a
literal date or a date template (modelled by its rendered text) is given,
as the config schema guarantees. -/
inductive DateSource where
  | literal (d : Date)
  | template (rendered : String)
deriving DecidableEq, Repr

/-- A DateSlot before start resolution. -/
structure DateSlotCfg where
  name : String
  src : DateSource
deriving DecidableEq, Repr

/-- The DateSlot.start property from schedule.py. With no template, the
configured date's month and day are rebuilt onto the current year. With a
template, the rendered text is handed to parse_date and its result is
returned as is; parse failure raises (modelled as .error). -/
def DateSlotCfg.start (cfg : DateSlotCfg) (currentYear : Nat) : Except String Date :=
  match cfg.src with
  | .literal d => .ok ⟨currentYear, d.month, d.day⟩
  | .template rendered => parse_date rendered

/-!
Schedule model from schedule.py. The hass handle and the condition are
opaque to the core: the condition is modelled by the outcome of invoking
it, an Except whose error is the raised Python exception. -/

/-- A Python exception raised by a condition callable. -/
inductive PyErr where
  | conditionErrorContainer
  | other (msg : String)
deriving DecidableEq, Repr

/-- Schedule from schedule.py (fields hass omitted: opaque handle). -/
structure Schedule (α : Type) where
  name : Option String
  state : String
  condition : Option (Except PyErr Bool)
  slots : List (ScheduleSlot α)

/-- Schedule.__init__ from schedule.py: state starts at the sentinel,
slots are sorted descending by their (resolved) start, stably. No
validation of any kind is performed: an empty slot list is accepted. -/
def Schedule.init [LinearOrder α] (name : Option String)
    (condition : Option (Except PyErr Bool))
    (slots : List (ScheduleSlot α)) : Schedule α :=
  ⟨name, "unknown", condition,
   List.insertionSort (fun a b => b.start ≤ a.start) slots⟩

/-- Schedule.update from schedule.py. Accessing slots[-1] on an empty
list raises IndexError, modelled by none. Otherwise: wraparound check on
the last slot first, then a linear scan in list order for the first slot
active at the instant, then the defensive sentinel fallback. -/
def Schedule.update [LinearOrder α] (s : Schedule α) (date_time : DateTime) :
    Option (Schedule α) :=
  match s.slots with
  | [] => none
  | first :: rest =>
    let last := (first :: rest).getLast (List.cons_ne_nil first rest)
    if last.after date_time then
      some { s with state := first.name }
    else
      match (first :: rest).find? (fun slot => slot.active_at date_time) with
      | some slot => some { s with state := slot.name }
      | none => some { s with state := "unknown" }

/-- Schedule.interval from schedule.py: the first slot's interval;
slots[0] on an empty list raises IndexError, modelled by none. -/
def Schedule.interval [LinearOrder α] (s : Schedule α) : Option Nat :=
  match s.slots with
  | [] => none
  | first :: _ => some first.interval

/-- Schedule.active from schedule.py: true with no condition; a raised
ConditionErrorContainer is swallowed and treated as active; any other
exception propagates. -/
def Schedule.active [LinearOrder α] (s : Schedule α) : Except PyErr Bool :=
  match s.condition with
  | none => .ok true
  | some (.ok b) => .ok b
  | some (.error .conditionErrorContainer) => .ok true
  | some (.error e) => .error e

/-!
Sensor model from sensor.py: the next-update calculation. Instants on
the sensor side are UTC epoch seconds (as_timestamp truncated to int);
the conversion from a UTC DateTime is the usual civil-calendar count. -/

/-- Days from 1970-01-01 to the first day of the given year. -/
def daysBeforeYear (y : Nat) : Nat :=
  ((List.range (y - 1970)).map fun i => if isLeap (1970 + i) then 366 else 365).sum

/-- Days from the first of January to the first of the given month. -/
def daysBeforeMonth (y m : Nat) : Nat :=
  ((List.range (m - 1)).map fun i => daysInMonth y (i + 1)).sum

/-- POSIX timestamp (whole seconds) of a UTC instant on or after 1970. -/
def DateTime.toEpoch (dt : DateTime) : Nat :=
  (daysBeforeYear dt.year + daysBeforeMonth dt.year dt.month + (dt.day - 1)) * 86400
    + dt.hour * 3600 + dt.minute * 60 + dt.second

/-- ScheduleSensor._calculate_next_update from sensor.py, as a function
of the active schedule (None when no schedule is active) and the current
instant now in truncated epoch seconds. The default delta is 10 seconds;
with an active schedule, delta is the time left until the next multiple
of the schedule's interval. Reading the interval of a slotless schedule
raises (none). The result is the epoch second of the next update. -/
def calculate_next_update [LinearOrder α] (active_schedule : Option (Schedule α))
    (now : Nat) : Option Nat :=
  match active_schedule with
  | none => some (now + 10)
  | some sched =>
    match sched.interval with
    | none => none
    | some interval => some (now + (interval - now % interval))

example : DateTime.toEpoch ⟨2010, 1, 1, 0, 0, 0⟩ = 1262304000 := by decide
example : DateTime.toEpoch ⟨2010, 1, 2, 0, 0, 0⟩ = 1262390400 := by decide

/-!
Spec-side definitions and shared concrete instances used by the claims.
-/

/-- Modelled from the spec's words (section 4.2): the state selected by
one update call: slot zero's name in the wraparound case, otherwise the
name of the first slot in descending order active at the instant,
otherwise the sentinel. Written to be compared with Schedule.update. -/
def updateStateSpec [LinearOrder α] (slots : List (ScheduleSlot α)) (t : DateTime) : String :=
  match slots with
  | [] => "unknown"
  | first :: rest =>
    if ((first :: rest).getLast (List.cons_ne_nil first rest)).after t then
      first.name
    else
      match (first :: rest).find? (fun slot => slot.active_at t) with
      | some slot => slot.name
      | none => "unknown"

/-- The three-slot example schedule of the spec's section 8 test. -/
def exampleTimeSchedule : Schedule Time :=
  Schedule.init none none
    [TimeSlot "t1" ⟨1, 0, 0⟩, TimeSlot "t2" ⟨2, 0, 0⟩, TimeSlot "t3" ⟨3, 0, 0⟩]

/-- A concrete instant on the example day, at a given time of day. -/
def atTime (h m : Nat) : DateTime := ⟨2010, 1, 1, h, m, 0⟩

/-- The one-date-slot schedule of the next-update alignment test. -/
def exampleDateSchedule : Schedule Date :=
  Schedule.init none none [DateSlot "" ⟨2010, 1, 1⟩]

/-- Whether the first character list occurs contiguously in the second. -/
def charsStart : List Char → List Char → Bool
  | [], _ => true
  | _ :: _, [] => false
  | a :: as, b :: bs => a == b && charsStart as bs

/-- Whether the needle occurs as a contiguous run of the haystack. -/
def charsSub (needle : List Char) : List Char → Bool
  | [] => charsStart needle []
  | b :: bs => charsStart needle (b :: bs) || charsSub needle bs

/-- Whether the needle string occurs inside the haystack string. -/
def strOccurs (needle hay : String) : Bool :=
  charsSub needle.toList hay.toList

example : strOccurs "21" "10-21" = true := by decide
example : strOccurs "10-21" parseErrMsg = false := by decide

example : (exampleTimeSchedule.update (atTime 2 0)).map Schedule.state = some "t2" := rfl
example : (exampleTimeSchedule.update (atTime 3 0)).map Schedule.state = some "t3" := rfl
example : (exampleTimeSchedule.update (atTime 1 0)).map Schedule.state = some "t1" := rfl
example : (exampleTimeSchedule.update (atTime 0 0)).map Schedule.state = some "t3" := rfl
example : exampleTimeSchedule.slots.map ScheduleSlot.name = ["t3", "t2", "t1"] := rfl
example : calculate_next_update (some exampleDateSchedule) (DateTime.toEpoch ⟨2010, 1, 1, 0, 0, 0⟩)
    = some (DateTime.toEpoch ⟨2010, 1, 2, 0, 0, 0⟩) := rfl
example : calculate_next_update (some exampleDateSchedule) (DateTime.toEpoch ⟨2010, 1, 1, 0, 0, 59⟩)
    = some (DateTime.toEpoch ⟨2010, 1, 2, 0, 0, 0⟩) := rfl

/-!
Shared helper lemmas.
-/

/-- On a linearly ordered boundary domain, being active at an instant is
the boolean negation of starting after it. -/
theorem ScheduleSlot.active_at_not_after [LinearOrder α] (s : ScheduleSlot α)
    (dt : DateTime) : s.active_at dt = !s.after dt := by
  simp only [ScheduleSlot.active_at, ScheduleSlot.after, ← not_lt, decide_not]

/-- One update call on a schedule with at least one slot returns the
schedule with its state replaced by the spec's selection. -/
theorem Schedule.update_eq [LinearOrder α] (s : Schedule α) (t : DateTime)
    (h : s.slots ≠ []) :
    s.update t = some { s with state := updateStateSpec s.slots t } := by
  obtain ⟨n, st, c, slots⟩ := s
  cases slots with
  | nil => exact absurd rfl h
  | cons first rest =>
    simp only [Schedule.update, updateStateSpec]
    cases hA : (List.getLast (first :: rest) (List.cons_ne_nil first rest)).after t with
    | true => simp [hA]
    | false =>
      simp only [hA, Bool.false_eq_true, if_false]
      cases hF : (first :: rest).find? (fun slot => slot.active_at t) with
      | some slot => simp [hF]
      | none => simp [hF]

/-!
Claim theorems.
-/

/-- C1: on a non-empty schedule sorted descending by resolved start,
update selects the state the spec describes: the wraparound case picks
slot zero's name, otherwise the first slot active at the instant, with
the sentinel as defensive fallback; on the three-slot example the four
updates yield t2, t3, t1 and t3. -/
theorem update_follows_spec_selection :
    (∀ {α : Type} [LinearOrder α] (s : Schedule α) (t : DateTime),
      s.slots ≠ [] →
      List.Sorted (fun a b => b.start ≤ a.start) s.slots →
      s.update t = some { s with state := updateStateSpec s.slots t }) ∧
    (exampleTimeSchedule.update (atTime 2 0)).map Schedule.state = some "t2" ∧
    (exampleTimeSchedule.update (atTime 3 0)).map Schedule.state = some "t3" ∧
    (exampleTimeSchedule.update (atTime 1 0)).map Schedule.state = some "t1" ∧
    (exampleTimeSchedule.update (atTime 0 0)).map Schedule.state = some "t3" :=
  ⟨fun s t h _ => Schedule.update_eq s t h, rfl, rfl, rfl, rfl⟩

/-- C1 witness: the general selection rule applied to the concrete
three-slot schedule at the wraparound instant. -/
theorem update_follows_spec_selection_witness :
    exampleTimeSchedule.update (atTime 0 0) =
      some { exampleTimeSchedule with
             state := updateStateSpec exampleTimeSchedule.slots (atTime 0 0) } :=
  update_follows_spec_selection.1 exampleTimeSchedule (atTime 0 0)
    (by
      have hslots : exampleTimeSchedule.slots =
          [TimeSlot "t3" ⟨3, 0, 0⟩, TimeSlot "t2" ⟨2, 0, 0⟩, TimeSlot "t1" ⟨1, 0, 0⟩] := rfl
      simp [hslots])
    (by
      have hslots : exampleTimeSchedule.slots =
          [TimeSlot "t3" ⟨3, 0, 0⟩, TimeSlot "t2" ⟨2, 0, 0⟩, TimeSlot "t1" ⟨1, 0, 0⟩] := rfl
      rw [hslots]
      decide)

/-- C2: for a slot of either variant, after holds exactly when the
instant's projection is strictly earlier than the slot's start, and
active_at exactly when the projection is at or past the start. -/
theorem slot_after_active_at_characterization :
    (∀ (n : String) (b : Time) (dt : DateTime),
      ((TimeSlot n b).after dt = true ↔ dt.time < b) ∧
      ((TimeSlot n b).active_at dt = true ↔ b ≤ dt.time)) ∧
    (∀ (n : String) (b : Date) (dt : DateTime),
      ((DateSlot n b).after dt = true ↔ dt.date < b) ∧
      ((DateSlot n b).active_at dt = true ↔ b ≤ dt.date)) := by
  refine ⟨fun n b dt => ⟨?_, ?_⟩, fun n b dt => ⟨?_, ?_⟩⟩ <;>
    simp [TimeSlot, DateSlot, ScheduleSlot.after, ScheduleSlot.active_at]

/-- C2 witness: a 01:00 time slot starts after 00:30 and a Nov 1 date
slot is active on Dec 1. -/
theorem slot_after_active_at_characterization_witness :
    (TimeSlot "a" ⟨1, 0, 0⟩).after ⟨2010, 1, 1, 0, 30, 0⟩ = true ∧
    (DateSlot "b" ⟨2010, 11, 1⟩).active_at ⟨2010, 12, 1, 0, 0, 0⟩ = true :=
  ⟨((slot_after_active_at_characterization.1 "a" ⟨1, 0, 0⟩ ⟨2010, 1, 1, 0, 30, 0⟩).1).mpr
     (by decide),
   ((slot_after_active_at_characterization.2 "b" ⟨2010, 11, 1⟩ ⟨2010, 12, 1, 0, 0, 0⟩).2).mpr
     (by decide)⟩

/-- C10: for a slot of either variant with its start held fixed,
active_at is the boolean negation of after; at an instant whose
projection equals the start, active_at holds and after does not. -/
theorem active_at_negation_of_after :
    (∀ (s : ScheduleSlot Time) (dt : DateTime),
      (s.active_at dt = !s.after dt) ∧
      (s.converter dt = s.start → s.active_at dt = true ∧ s.after dt = false)) ∧
    (∀ (s : ScheduleSlot Date) (dt : DateTime),
      (s.active_at dt = !s.after dt) ∧
      (s.converter dt = s.start → s.active_at dt = true ∧ s.after dt = false)) := by
  refine ⟨fun s dt => ⟨s.active_at_not_after dt, fun h => ?_⟩,
          fun s dt => ⟨s.active_at_not_after dt, fun h => ?_⟩⟩ <;>
    simp [ScheduleSlot.active_at, ScheduleSlot.after, h]

/-- C10 witness: at the exact boundary instant of a 01:00 slot, active_at
is true, after is false, and the two are complementary. -/
theorem active_at_negation_of_after_witness :
    (TimeSlot "t1" ⟨1, 0, 0⟩).active_at ⟨2010, 1, 1, 1, 0, 0⟩ = true ∧
    (TimeSlot "t1" ⟨1, 0, 0⟩).after ⟨2010, 1, 1, 1, 0, 0⟩ = false :=
  (active_at_negation_of_after.1 (TimeSlot "t1" ⟨1, 0, 0⟩) ⟨2010, 1, 1, 1, 0, 0⟩).2 rfl

/-- C3 counterexample: a DateSlot whose boundary comes from a template
rendering 12/25 resolves, at current year 2010, to Dec 25 of year 1900,
not of the current year: the template path performs no year
re-projection. -/
theorem dateslot_template_year_counterexample :
    (DateSlotCfg.mk "d2" (.template "12/25")).start 2010 = .ok ⟨1900, 12, 25⟩ ∧
    (1900 : Nat) ≠ 2010 :=
  ⟨rfl, by decide⟩

/-- C3 amended: only a literal configured date is re-projected onto the
current calendar year; a template-produced date is returned exactly as
parse_date yields it, keeping whatever year the text's format supplies
(1900 for the year-less month/day format). -/
theorem dateslot_start_year_projection :
    (∀ (n : String) (d : Date) (y : Nat),
      (DateSlotCfg.mk n (.literal d)).start y = .ok ⟨y, d.month, d.day⟩) ∧
    (∀ (n rendered : String) (y : Nat),
      (DateSlotCfg.mk n (.template rendered)).start y = parse_date rendered) ∧
    (DateSlotCfg.mk "d1" (.literal ⟨1900, 12, 25⟩)).start 2010 = .ok ⟨2010, 12, 25⟩ :=
  ⟨fun _ _ _ => rfl, fun _ _ _ => rfl, rfl⟩

/-- C5: parsing tries the format lists in order and fails on 10-21 as a
date and 02/01 as a time, but the ValueError message is the constant
text interpolating the Python builtin named input, so it does not name
the offending value, contrary to the claim and to the evident intent of
the f-string. -/
theorem parse_error_message_names_no_value :
    parse_date "10-21" = .error parseErrMsg ∧
    parse_time "02/01" = .error parseErrMsg ∧
    strOccurs "10-21" parseErrMsg = false ∧
    strOccurs "02/01" parseErrMsg = false :=
  ⟨rfl, rfl, by decide, by decide⟩

/-- C6 counterexample: constructing a Schedule from an empty slot list
succeeds and produces a Schedule object (state the sentinel, no slots);
no configuration error is raised at construction time. -/
theorem schedule_empty_slots_constructed :
    Schedule.init (α := Time) none none [] =
      ⟨none, "unknown", none, []⟩ :=
  rfl

/-- C6 amended: a Schedule built from an empty slot list is not rejected
at construction; the defect only surfaces at runtime, where update and
interval hit the empty list (IndexError, modelled as none). -/
theorem schedule_empty_slots_fail_only_at_runtime :
    Schedule.init (α := Time) none none [] = ⟨none, "unknown", none, []⟩ ∧
    (∀ t, (Schedule.init (α := Time) none none []).update t = none) ∧
    (Schedule.init (α := Time) none none []).interval = none :=
  ⟨rfl, fun _ => rfl, rfl⟩

/-- C7: the active property is true without an enablement predicate,
true when the predicate raises the recoverable condition-error container
(fail open), the predicate's boolean when evaluation succeeds, and any
other exception propagates. -/
theorem schedule_active_fail_open (s : Schedule Time) :
    (s.condition = none → s.active = .ok true) ∧
    (s.condition = some (.error .conditionErrorContainer) → s.active = .ok true) ∧
    (∀ b, s.condition = some (.ok b) → s.active = .ok b) ∧
    (∀ m, s.condition = some (.error (.other m)) → s.active = .error (.other m)) := by
  refine ⟨fun h => ?_, fun h => ?_, fun b h => ?_, fun m h => ?_⟩ <;>
    simp [Schedule.active, h]

/-- C7 witness: a schedule whose predicate raised the recoverable
condition error reports active. -/
theorem schedule_active_fail_open_witness :
    (Schedule.mk none "unknown" (some (.error .conditionErrorContainer))
      ([] : List (ScheduleSlot Time))).active = .ok true :=
  (schedule_active_fail_open _).2.1 rfl

/-- C8: one update call on a schedule with at least one slot returns the
schedule itself with only the state field replaced: name, slots (hence
their construction-time order) and the enablement predicate are
unchanged. -/
theorem update_mutates_only_state {α : Type} [LinearOrder α] (s : Schedule α)
    (t : DateTime) (h : s.slots ≠ []) :
    ∃ s', s.update t = some s' ∧ s'.name = s.name ∧ s'.slots = s.slots ∧
      s'.condition = s.condition :=
  ⟨{ s with state := updateStateSpec s.slots t },
   Schedule.update_eq s t h, rfl, rfl, rfl⟩

/-- C8 witness: the frame property at the three-slot example schedule. -/
theorem update_mutates_only_state_witness :
    ∃ s', exampleTimeSchedule.update (atTime 2 0) = some s' ∧
      s'.name = exampleTimeSchedule.name ∧
      s'.slots = exampleTimeSchedule.slots ∧
      s'.condition = exampleTimeSchedule.condition :=
  update_mutates_only_state exampleTimeSchedule (atTime 2 0)
    (by
      have hslots : exampleTimeSchedule.slots =
          [TimeSlot "t3" ⟨3, 0, 0⟩, TimeSlot "t2" ⟨2, 0, 0⟩, TimeSlot "t1" ⟨1, 0, 0⟩] := rfl
      simp [hslots])

/-- C9: on a non-empty schedule sorted descending by start, whenever the
wraparound test on the last slot is false that slot is active at the
instant, so the scan always matches and update sets the state to the
name of one of the schedule's slots: the sentinel fallback is
unreachable. -/
theorem update_fallback_unreachable {α : Type} [LinearOrder α] (s : Schedule α)
    (t : DateTime) (h : s.slots ≠ [])
    (hs : List.Sorted (fun a b => b.start ≤ a.start) s.slots) :
    ((s.slots.getLast h).after t = false → (s.slots.getLast h).active_at t = true) ∧
    ∃ slot ∈ s.slots, s.update t = some { s with state := slot.name } := by
  refine ⟨fun hA => by rw [ScheduleSlot.active_at_not_after, hA]; rfl, ?_⟩
  rw [Schedule.update_eq s t h]
  obtain ⟨n, st, c, slots⟩ := s
  cases slots with
  | nil => exact absurd rfl h
  | cons first rest =>
    simp only [updateStateSpec]
    cases hA : (List.getLast (first :: rest) (List.cons_ne_nil first rest)).after t with
    | true =>
      exact ⟨first, List.mem_cons_self first rest, by simp [hA]⟩
    | false =>
      have hAct : (List.getLast (first :: rest) (List.cons_ne_nil first rest)).active_at t
          = true := by
        rw [ScheduleSlot.active_at_not_after, hA]; rfl
      cases hF : (first :: rest).find? (fun slot => slot.active_at t) with
      | some slot =>
        exact ⟨slot, List.mem_of_find?_eq_some hF, by simp [hA, hF]⟩
      | none =>
        exact absurd hAct (by simpa using List.find?_eq_none.mp hF _ (List.getLast_mem _))

/-- C9 witness: on the three-slot example schedule at the wraparound
instant, the update state is the name of one of its slots. -/
theorem update_fallback_unreachable_witness :
    ∃ slot ∈ exampleTimeSchedule.slots,
      exampleTimeSchedule.update (atTime 0 0) =
        some { exampleTimeSchedule with state := slot.name } :=
  (update_fallback_unreachable exampleTimeSchedule (atTime 0 0)
    (by
      have hslots : exampleTimeSchedule.slots =
          [TimeSlot "t3" ⟨3, 0, 0⟩, TimeSlot "t2" ⟨2, 0, 0⟩, TimeSlot "t1" ⟨1, 0, 0⟩] := rfl
      simp [hslots])
    (by
      have hslots : exampleTimeSchedule.slots =
          [TimeSlot "t3" ⟨3, 0, 0⟩, TimeSlot "t2" ⟨2, 0, 0⟩, TimeSlot "t1" ⟨1, 0, 0⟩] := rfl
      rw [hslots]
      decide)).2

/-- C4: with an active schedule whose polling interval is I the next
update is now plus I minus the remainder of now modulo I; with no active
schedule it is now plus the 10-second default; for the one-date-slot
schedule (interval 86400) both 2010-01-01T00:00:00Z and
2010-01-01T00:00:59Z yield next update 2010-01-02T00:00:00Z. -/
theorem next_update_alignment :
    (∀ {α : Type} [LinearOrder α] (s : Schedule α) (I now : Nat),
      s.interval = some I →
      calculate_next_update (some s) now = some (now + (I - now % I))) ∧
    (∀ now : Nat, calculate_next_update (α := Date) none now = some (now + 10)) ∧
    calculate_next_update (some exampleDateSchedule)
      (DateTime.toEpoch ⟨2010, 1, 1, 0, 0, 0⟩)
      = some (DateTime.toEpoch ⟨2010, 1, 2, 0, 0, 0⟩) ∧
    calculate_next_update (some exampleDateSchedule)
      (DateTime.toEpoch ⟨2010, 1, 1, 0, 0, 59⟩)
      = some (DateTime.toEpoch ⟨2010, 1, 2, 0, 0, 0⟩) := by
  refine ⟨fun s I now hI => ?_, fun now => rfl, rfl, rfl⟩
  simp [calculate_next_update, hI]

/-- C4 witness: the alignment formula applied to the one-date-slot
schedule at the epoch second of 2010-01-01T00:00:00Z. -/
theorem next_update_alignment_witness :
    calculate_next_update (some exampleDateSchedule) 1262304000
      = some (1262304000 + (86400 - 1262304000 % 86400)) :=
  next_update_alignment.1 exampleDateSchedule 86400 1262304000 rfl
